import Mathlib

/-! Verification of the Anchor TypeScript SDK's request pipeline, error
classifier and domain normalizers, as a shallow embedding in Lean.

The embedding follows the source files:
  * `src/http.ts`            — `HttpClient.handleError`, `HttpClient.request`
  * `src/namespaces/*.ts`    — the per-entity `parse*` normalizers and the
                               namespace facade methods
  * `src/config.ts`          — configuration defaulting (`normalizeConfig`)

Wire JSON is modelled by the inductive `Json`; JavaScript truthiness,
`||`-defaulting, strict comparison and `new Date(...)` are modelled by
executable functions so that every claim can be evaluated on concrete
inputs.
-/

namespace Anchor

/-- JSON values as delivered on the wire.  Numbers are modelled as integers
(the SDK's payload fields that matter here — counts, sizes, retry-after —
are integral; no claim depends on fractional numbers). -/
inductive Json where
  | null : Json
  | bool (b : Bool) : Json
  | num (n : Int) : Json
  | str (s : String) : Json
  | arr (elems : List Json) : Json
  | obj (fields : List (String × Json)) : Json

/-- JavaScript truthiness of a JSON value (`undefined` is represented by
`Option.none` at use sites): `null`, `false`, `0` and `""` are falsy,
every object and array is truthy. -/
def truthy : Json → Bool
  | .null => false
  | .bool b => b
  | .num n => n != 0
  | .str s => s != ""
  | .arr _ => true
  | .obj _ => true

/-- Truthiness of a possibly-absent value: JavaScript `undefined` is falsy. -/
def truthyO : Option Json → Bool
  | some v => truthy v
  | none => false

/-- Last binding of a key in an association list (later JS object writes
shadow earlier ones, so property access sees the last occurrence). -/
def lookupField : List (String × Json) → String → Option Json
  | [], _ => none
  | (k', v) :: rest, k =>
      match lookupField rest k with
      | some r => some r
      | none => if k' = k then some v else none

/-- JavaScript property access `data?.k`: `none` models `undefined`
(key absent, or the receiver is not an object). -/
def getField : Json → String → Option Json
  | .obj fields, k => lookupField fields k
  | _, _ => none

/-- Whether an object literally has the key (present even with a falsy
value such as `null` or `""`). -/
def hasField (j : Json) (k : String) : Bool :=
  (getField j k).isSome

/-- JavaScript `a || b` where `a` may be `undefined`: the left value when
truthy, the default otherwise. -/
def jsOrD (a : Option Json) (b : Json) : Json :=
  match a with
  | some v => if truthy v then v else b
  | none => b

/-! Dates

`new Date(x)` on a wire timestamp.  A `JsDate` is either a valid instant
(epoch milliseconds) or the JavaScript `Invalid Date` (`time = none`).
String parsing models the ISO-8601 / ECMA-262 date-time subset the server
emits (`YYYY-MM-DD` optionally followed by `THH:MM[:SS[.mmm]][Z]`), with
instants from 1970 onward; zone-less date-times are read as UTC. -/

/-- A JavaScript `Date`: a valid epoch-millisecond instant, or
`Invalid Date` (`none`). -/
structure JsDate where
  time : Option Int
  deriving DecidableEq, Repr

/-- Numeric value of a decimal digit character. -/
def digitVal (c : Char) : Nat := c.toNat - 48

/-- Two decimal digits. -/
def parse2 (a b : Char) : Option Nat :=
  if a.isDigit && b.isDigit then some (digitVal a * 10 + digitVal b) else none

/-- Three decimal digits. -/
def parse3 (a b c : Char) : Option Nat :=
  if a.isDigit && b.isDigit && c.isDigit then
    some (digitVal a * 100 + digitVal b * 10 + digitVal c)
  else none

/-- Four decimal digits. -/
def parse4 (a b c d : Char) : Option Nat :=
  if a.isDigit && b.isDigit && c.isDigit && d.isDigit then
    some (digitVal a * 1000 + digitVal b * 100 + digitVal c * 10 + digitVal d)
  else none

/-- Gregorian leap year. -/
def leapYear (y : Nat) : Bool :=
  (y % 4 == 0 && y % 100 != 0) || y % 400 == 0

/-- Days in a month of a given year. -/
def daysInMonth (y m : Nat) : Nat :=
  if m = 2 then (if leapYear y then 29 else 28)
  else if m = 4 ∨ m = 6 ∨ m = 9 ∨ m = 11 then 30
  else 31

/-- Days from 1970-01-01 to the start of year `y` (for `y ≥ 1970`). -/
def daysBeforeYear (y : Nat) : Nat :=
  ((List.range (y - 1970)).map (fun i => if leapYear (1970 + i) then 366 else 365)).sum

/-- Days from the start of year `y` to the start of month `m`. -/
def daysBeforeMonth (y m : Nat) : Nat :=
  ((List.range (m - 1)).map (fun i => daysInMonth y (i + 1))).sum

/-- Epoch milliseconds of a UTC civil date-time. -/
def epochMillis (y m d hh mi ss ms : Nat) : Nat :=
  ((((daysBeforeYear y + daysBeforeMonth y m + (d - 1)) * 24 + hh) * 60 + mi) * 60 + ss)
      * 1000 + ms

/-- Parse the `YYYY-MM-DD` date component. -/
def parseDatePart : List Char → Option (Nat × Nat × Nat)
  | [y1, y2, y3, y4, '-', m1, m2, '-', d1, d2] => do
      let y ← parse4 y1 y2 y3 y4
      let m ← parse2 m1 m2
      let d ← parse2 d1 d2
      some (y, m, d)
  | _ => none

/-- Drop a trailing `Z` zone designator. -/
def dropZ (cs : List Char) : List Char :=
  match cs.reverse with
  | 'Z' :: r => r.reverse
  | _ => cs

/-- Parse the `HH:MM[:SS[.mmm]]` time component (zone already stripped). -/
def parseTimePart : List Char → Option (Nat × Nat × Nat × Nat)
  | [h1, h2, ':', m1, m2] => do
      let hh ← parse2 h1 h2
      let mi ← parse2 m1 m2
      some (hh, mi, 0, 0)
  | [h1, h2, ':', m1, m2, ':', s1, s2] => do
      let hh ← parse2 h1 h2
      let mi ← parse2 m1 m2
      let ss ← parse2 s1 s2
      some (hh, mi, ss, 0)
  | [h1, h2, ':', m1, m2, ':', s1, s2, '.', f1, f2, f3] => do
      let hh ← parse2 h1 h2
      let mi ← parse2 m1 m2
      let ss ← parse2 s1 s2
      let ms ← parse3 f1 f2 f3
      some (hh, mi, ss, ms)
  | _ => none

/-- Parse an ISO-8601 timestamp string to epoch milliseconds; `none`
models JavaScript's `Invalid Date` for strings outside the accepted
format or with out-of-range components. -/
def parseISO (s : String) : Option Nat := do
  let cs := s.toList
  let (datePart, rest) := cs.span (fun c => c ≠ 'T')
  let (y, m, d) ← parseDatePart datePart
  let (hh, mi, ss, ms) ←
    match rest with
    | [] => some (0, 0, 0, 0)
    | _ :: timePart => parseTimePart (dropZ timePart)
  if 1970 ≤ y ∧ 1 ≤ m ∧ m ≤ 12 ∧ 1 ≤ d ∧ d ≤ daysInMonth y m
      ∧ hh ≤ 23 ∧ mi ≤ 59 ∧ ss ≤ 59 then
    some (epochMillis y m d hh mi ss ms)
  else none

/-- Model of `new Date(v)` on a wire value: ISO strings are parsed (malformed
strings yield `Invalid Date`), numbers are epoch milliseconds, `null` and
booleans coerce to `0`/`1` as in JavaScript; objects and arrays are
modelled as `Invalid Date`. -/
def jsNewDate : Json → JsDate
  | .str s => ⟨(parseISO s).map Int.ofNat⟩
  | .num n => ⟨some n⟩
  | .bool b => ⟨some (if b then 1 else 0)⟩
  | .null => ⟨some 0⟩
  | .arr _ => ⟨none⟩
  | .obj _ => ⟨none⟩

/-- The normalizers' timestamp idiom `x ? new Date(x) : undefined`:
a date only when the wire value is present and truthy. -/
def jsTernaryDate (o : Option Json) : Option JsDate :=
  match o with
  | some v => if truthy v then some (jsNewDate v) else none
  | none => none

/-! JSON text parsing

`JSON.parse` as used on response body text (`http.ts` lines 136–150).
A small recursive-descent parser with explicit fuel; it covers the JSON
grammar with integer numbers and the common string escapes, which is the
shape of every body the SDK exchanges. -/

/-- JSON whitespace. -/
def isJsonWs (c : Char) : Bool :=
  c = ' ' ∨ c = '\t' ∨ c = '\n' ∨ c = '\r'

/-- Drop leading JSON whitespace. -/
def skipWs (cs : List Char) : List Char :=
  cs.dropWhile isJsonWs

/-- Parse the remainder of a string literal after the opening quote,
handling the single-character escapes. -/
def parseStringRest : List Char → Option (String × List Char)
  | [] => none
  | '"' :: rest => some ("", rest)
  | '\\' :: e :: rest => do
      let c ←
        match e with
        | '"' => some '"'
        | '\\' => some '\\'
        | '/' => some '/'
        | 'n' => some '\n'
        | 't' => some '\t'
        | 'r' => some '\r'
        | 'b' => some (Char.ofNat 8)
        | 'f' => some (Char.ofNat 12)
        | _ => none
      let (s, r) ← parseStringRest rest
      some (String.mk (c :: s.toList), r)
  | c :: rest => do
      let (s, r) ← parseStringRest rest
      some (String.mk (c :: s.toList), r)

/-- Consume leading decimal digits. -/
def takeDigits : List Char → (List Char × List Char) :=
  fun cs => (cs.takeWhile Char.isDigit, cs.dropWhile Char.isDigit)

/-- Digits to a natural number. -/
def digitsToNat (ds : List Char) : Nat :=
  ds.foldl (fun acc c => acc * 10 + digitVal c) 0

/-- Parse an integer JSON number. -/
def parseNumber (cs : List Char) : Option (Json × List Char) :=
  match cs with
  | '-' :: rest =>
      match takeDigits rest with
      | ([], _) => none
      | (ds, r) => some (.num (-(Int.ofNat (digitsToNat ds))), r)
  | _ =>
      match takeDigits cs with
      | ([], _) => none
      | (ds, r) => some (.num (Int.ofNat (digitsToNat ds)), r)

mutual

/-- Parse one JSON value. -/
def parseVal : Nat → List Char → Option (Json × List Char)
  | 0, _ => none
  | f + 1, cs =>
      match skipWs cs with
      | 'n' :: 'u' :: 'l' :: 'l' :: rest => some (.null, rest)
      | 't' :: 'r' :: 'u' :: 'e' :: rest => some (.bool true, rest)
      | 'f' :: 'a' :: 'l' :: 's' :: 'e' :: rest => some (.bool false, rest)
      | '"' :: rest => do
          let (s, r) ← parseStringRest rest
          some (.str s, r)
      | '[' :: rest =>
          (match skipWs rest with
           | ']' :: r2 => some (.arr [], r2)
           | r2 => do
               let (xs, r3) ← parseItems f r2
               some (.arr xs, r3))
      | '{' :: rest =>
          (match skipWs rest with
           | '}' :: r2 => some (.obj [], r2)
           | r2 => do
               let (ms, r3) ← parseMembers f r2
               some (.obj ms, r3))
      | cs' => parseNumber cs'

/-- Parse comma-separated array items up to the closing bracket. -/
def parseItems : Nat → List Char → Option (List Json × List Char)
  | 0, _ => none
  | f + 1, cs => do
      let (v, r) ← parseVal f cs
      match skipWs r with
      | ',' :: r2 => do
          let (xs, r3) ← parseItems f r2
          some (v :: xs, r3)
      | ']' :: r2 => some ([v], r2)
      | _ => none

/-- Parse comma-separated object members up to the closing brace. -/
def parseMembers : Nat → List Char → Option (List (String × Json) × List Char)
  | 0, _ => none
  | f + 1, cs => do
      match skipWs cs with
      | '"' :: rest => do
          let (k, r) ← parseStringRest rest
          match skipWs r with
          | ':' :: r2 => do
              let (v, r3) ← parseVal f r2
              match skipWs r3 with
              | ',' :: r4 => do
                  let (ms, r5) ← parseMembers f r4
                  some ((k, v) :: ms, r5)
              | '}' :: r4 => some ([(k, v)], r4)
              | _ => none
          | _ => none
      | _ => none

end

/-- Model of `JSON.parse(text)`: a value parse that must consume the whole input. -/
def jsonParse (s : String) : Option Json :=
  match parseVal (2 * s.length + 2) s.toList with
  | some (v, rest) => if (skipWs rest).isEmpty then some v else none
  | none => none

/-- Response body normalization (`http.ts` lines 136–150): empty text
becomes `{}`; non-empty text is `JSON.parse`d, falling back to
`{ error: <raw text> }` when it is not valid JSON. -/
def parseBody (text : String) : Json :=
  if text = "" then .obj []
  else
    match jsonParse text with
    | some v => v
    | none => .obj [("error", .str text)]

/-! Error classification

`HttpClient.handleError` (`http.ts` lines 40–64): the closed error
taxonomy from `exceptions.ts`, with the constructor arguments the source
passes (kind-specific fields are the raw body values, possibly absent). -/

/-- The SDK's thrown error kinds (`exceptions.ts`).  `message` and
`policyName` are JSON values because the source forwards whatever the
body held (`data?.message || data?.error || ...`). -/
inductive ErrKind where
  | policyViolation (message : Json) (policyName : Json) (status : Nat) (response : Json)
  | validation (message : Json) (status : Nat) (response : Json) (field : Option Json)
  | authentication (message : Json) (status : Nat) (response : Json)
  | authorization (message : Json) (status : Nat) (response : Json)
      (requiredPermission : Option Json)
  | notFound (message : Json) (status : Nat) (response : Json)
  | rateLimit (message : Json) (status : Nat) (response : Json) (retryAfter : Option Json)
  | server (message : Json) (status : Nat) (response : Json)
  | api (message : Json) (status : Nat) (response : Json)
  | network (message : String)

/-- Discriminator: is this a `PolicyViolationError`? -/
def ErrKind.isPolicyViolation : ErrKind → Bool
  | .policyViolation .. => true
  | _ => false

/-- Discriminator: is this a `NotFoundError`? -/
def ErrKind.isNotFound : ErrKind → Bool
  | .notFound .. => true
  | _ => false

/-- Discriminator: is this a `NetworkError`? -/
def ErrKind.isNetwork : ErrKind → Bool
  | .network .. => true
  | _ => false

/-- The classifier's message: `data?.message || data?.error ||
HTTP <code>` (`http.ts` line 41). -/
def classifierMessage (statusCode : Nat) (data : Json) : Json :=
  jsOrD (getField data "message")
    (jsOrD (getField data "error") (.str ("HTTP " ++ toString statusCode)))

/-- The policy name attached to a policy violation:
`data.blocked_by || data.policy_name || 'unknown'` (`http.ts` line 45). -/
def classifierPolicyName (data : Json) : Json :=
  jsOrD (getField data "blocked_by")
    (jsOrD (getField data "policy_name") (.str "unknown"))

/-- Whether the body triggers the policy-violation branch:
`data?.blocked_by || data?.policy_name` (`http.ts` line 44) — a JS
truthiness test, not mere key presence. -/
def policyIndicator (data : Json) : Bool :=
  truthyO (getField data "blocked_by") || truthyO (getField data "policy_name")

/-- Classifier `HttpClient.handleError` (`http.ts` lines 40–64): classify a
non-2xx (status, parsed body) pair. -/
def handleError (statusCode : Nat) (data : Json) : ErrKind :=
  let message := classifierMessage statusCode data
  if policyIndicator data then
    .policyViolation message (classifierPolicyName data) statusCode data
  else if statusCode = 400 then
    .validation message statusCode data (getField data "field")
  else if statusCode = 401 then
    .authentication message statusCode data
  else if statusCode = 403 then
    .authorization message statusCode data (getField data "required_permission")
  else if statusCode = 404 then
    .notFound message statusCode data
  else if statusCode = 429 then
    .rateLimit message statusCode data (getField data "retry_after")
  else if 500 ≤ statusCode then
    .server message statusCode data
  else
    .api message statusCode data

/-! The retried request pipeline

`HttpClient.request` (`http.ts` lines 70–195).  A single transport
attempt is abstracted by an oracle `Nat → AttemptOutcome` giving, per
attempt index, either a transport-level failure (connect error or
timeout/abort) or an HTTP response (status code and raw body text).  The
loop is run with explicit fuel `retryAttempts + 1` (the source's
`for (attempt = 0; attempt <= retryAttempts; ...)`), recording the
transport attempts performed and the backoff sleeps awaited. -/

/-- Outcome of one transport attempt: a fetch rejection (`timeout = true`
for an `AbortError`) or an HTTP response with status and body text. -/
inductive AttemptOutcome where
  | fail (timeout : Bool) (msg : String)
  | resp (status : Nat) (body : String)

/-- Whether the attempt failed at the transport level. -/
def AttemptOutcome.isFail : AttemptOutcome → Bool
  | .fail .. => true
  | .resp .. => false

/-- The `NetworkError` message for a transport failure (`http.ts`
lines 122–126): timeouts report the configured timeout, other rejections
carry the underlying message. -/
def failMsg (timeout : Nat) (isTimeout : Bool) (msg : String) : String :=
  if isTimeout then "Request timeout after " ++ toString timeout ++ "ms"
  else "Request failed: " ++ msg

/-- Observable result of one logical `request` call: the value returned
or error thrown, the number of transport attempts performed, and the
backoff sleeps awaited (in milliseconds, in order). -/
structure RunResult where
  result : Except ErrKind Json
  attempts : Nat
  sleeps : List Nat

/-- The attempt loop of `HttpClient.request` (`http.ts` lines 103–195).
`R` is `retryAttempts`, `D` is `retryDelay`, `T` is the per-attempt
timeout; `fuel` counts the remaining loop iterations (`R + 1 - attempt`),
`attempt` is the current zero-based attempt index, `lastError` mirrors
the source's `lastError` variable, and `sleeps`/`n` accumulate the trace.

Branches, in source order: a transport failure builds a `NetworkError`,
sleeps `D * 2 ^ attempt` and retries while budget remains, else throws it
(the source throws it at line 131, re-catches it at line 170 and
re-throws it after the loop at line 192 — same observable outcome); a
response has its body normalized by `parseBody`; `response.ok`
(2xx) returns it; otherwise `statusCode = response.status || 500`; a 4xx
other than 429 is classified and thrown immediately (re-thrown by the
`instanceof AnchorAPIError` guard at line 172); any other failing status
sleeps and retries while budget remains, else is classified and thrown. -/
def requestGo (R D T : Nat) (oracle : Nat → AttemptOutcome) :
    Nat → Nat → Option ErrKind → List Nat → Nat → RunResult
  | 0, _, lastError, sleeps, n =>
      ⟨.error (lastError.getD (.network "Request failed after retries")), n, sleeps⟩
  | fuel + 1, attempt, lastError, sleeps, n =>
      match oracle attempt with
      | .fail isTimeout msg =>
          let e : ErrKind := .network (failMsg T isTimeout msg)
          if attempt < R then
            requestGo R D T oracle fuel (attempt + 1) (some e)
              (sleeps ++ [D * 2 ^ attempt]) (n + 1)
          else
            ⟨.error e, n + 1, sleeps⟩
      | .resp status body =>
          let data := parseBody body
          if 200 ≤ status ∧ status ≤ 299 then
            ⟨.ok data, n + 1, sleeps⟩
          else
            let statusCode := if status = 0 then 500 else status
            if 400 ≤ statusCode ∧ statusCode < 500 ∧ statusCode ≠ 429 then
              ⟨.error (handleError statusCode data), n + 1, sleeps⟩
            else if attempt < R then
              requestGo R D T oracle fuel (attempt + 1) lastError
                (sleeps ++ [D * 2 ^ attempt]) (n + 1)
            else
              ⟨.error (handleError statusCode data), n + 1, sleeps⟩

/-- One logical `request` call with resolved retry configuration. -/
def requestRun (R D T : Nat) (oracle : Nat → AttemptOutcome) : RunResult :=
  requestGo R D T oracle (R + 1) 0 none [] 0

/-- The headers attached to every attempt of a call (`http.ts` lines
91–101): the client-identifying `User-Agent` always; `X-API-Key` when an
API key is configured (JS truthiness: a non-empty string); a JSON
`Content-Type` exactly when a body object is passed
(`data !== undefined`).  The source builds this object once, before the
attempt loop, so every retry reuses the same headers. -/
def requestHeaders (apiKey : String) (hasBody : Bool) : List (String × String) :=
  [("User-Agent", "anchorai-typescript/1.0.0")]
    ++ (if apiKey ≠ "" then [("X-API-Key", apiKey)] else [])
    ++ (if hasBody then [("Content-Type", "application/json")] else [])

/-! Domain normalizers

One pure function per entity, translated from the `parse*` functions in
`src/namespaces/*.ts`.  Scalar fields keep the JSON value the source
stores (TypeScript performs no runtime coercion, so a `||`-defaulted
field holds whatever truthy wire value arrived, or the default);
timestamp fields use the `x ? new Date(x) : undefined` idiom
(`jsTernaryDate`); optional relational fields are the raw wire value,
absent when the key is absent. -/

/-- Agent record (`namespaces/index.ts`). -/
structure Agent where
  id : Json
  name : Json
  status : Json
  metadata : Json
  configVersion : Option Json
  dataCount : Option Json
  checkpointCount : Option Json
  createdAt : Option JsDate
  updatedAt : Option JsDate

/-- Normalizer `parseAgent` (`namespaces/index.ts` lines 59–71). -/
def parseAgent (data : Json) : Agent where
  id := jsOrD (getField data "id") (jsOrD (getField data "agent_id") (.str ""))
  name := jsOrD (getField data "name") (.str "")
  status := jsOrD (getField data "status") (.str "active")
  metadata := jsOrD (getField data "metadata") (jsOrD (getField data "config") (.obj []))
  configVersion := getField data "config_version"
  dataCount := getField data "data_count"
  checkpointCount := getField data "checkpoint_count"
  createdAt := jsTernaryDate (getField data "created_at")
  updatedAt := jsTernaryDate (getField data "updated_at")

/-- Agent configuration entity (`namespaces/config.ts`). -/
structure Config where
  agentId : Json
  version : Json
  config : Json
  previousVersion : Option Json
  createdAt : Option JsDate
  createdBy : Option Json
  auditId : Option Json

/-- Normalizer `parseConfig` (`namespaces/config.ts`). -/
def parseConfig (data : Json) : Config where
  agentId := jsOrD (getField data "agent_id") (.str "")
  version := jsOrD (getField data "version") (.str "")
  config := jsOrD (getField data "config") (.obj [])
  previousVersion := getField data "previous_version"
  createdAt := jsTernaryDate (getField data "created_at")
  createdBy := getField data "created_by"
  auditId := getField data "audit_id"

/-- Config version metadata (`namespaces/config.ts`). -/
structure ConfigVersion where
  version : Json
  createdAt : Option JsDate
  createdBy : Option Json
  summary : Option Json

/-- Normalizer `parseConfigVersion` (`namespaces/config.ts`). -/
def parseConfigVersion (data : Json) : ConfigVersion where
  version := jsOrD (getField data "version") (.str "")
  createdAt := jsTernaryDate (getField data "created_at")
  createdBy := getField data "created_by"
  summary := getField data "summary"

/-- Result of a data write (`namespaces/data.ts`). -/
structure WriteResult where
  key : Json
  allowed : Bool
  auditId : Json
  blockedBy : Option Json
  reason : Option Json
  expiresAt : Option JsDate
  createdAt : Option JsDate

/-- Normalizer `parseWriteResult` (`namespaces/data.ts` lines 63–73).  `allowed`
is `data.allowed !== false`: anything but the literal boolean `false`
(including an absent field) normalizes to `true`. -/
def parseWriteResult (data : Json) : WriteResult where
  key := jsOrD (getField data "key") (.str "")
  allowed :=
    match getField data "allowed" with
    | some (.bool false) => false
    | _ => true
  auditId := jsOrD (getField data "audit_id") (.str "")
  blockedBy := getField data "blocked_by"
  reason := getField data "reason"
  expiresAt := jsTernaryDate (getField data "expires_at")
  createdAt := jsTernaryDate (getField data "created_at")

/-- Full data entry (`namespaces/data.ts`). -/
structure DataEntry where
  key : Json
  value : Json
  metadata : Json
  createdAt : Option JsDate
  updatedAt : Option JsDate
  expiresAt : Option JsDate
  auditId : Json

/-- Normalizer `parseDataEntry` (`namespaces/data.ts` lines 75–85). -/
def parseDataEntry (data : Json) : DataEntry where
  key := jsOrD (getField data "key") (.str "")
  value := jsOrD (getField data "value") (.str "")
  metadata := jsOrD (getField data "metadata") (.obj [])
  createdAt := jsTernaryDate (getField data "created_at")
  updatedAt := jsTernaryDate (getField data "updated_at")
  expiresAt := jsTernaryDate (getField data "expires_at")
  auditId := jsOrD (getField data "audit_id") (.str "")

/-- Vector-search hit (`namespaces/data.ts`). -/
structure SearchResult where
  key : Json
  value : Json
  similarity : Json
  metadata : Json

/-- Normalizer `parseSearchResult` (`namespaces/data.ts` lines 87–94). -/
def parseSearchResult (data : Json) : SearchResult where
  key := jsOrD (getField data "key") (.str "")
  value := jsOrD (getField data "value") (.str "")
  similarity := jsOrD (getField data "similarity") (.num 0)
  metadata := jsOrD (getField data "metadata") (.obj [])

/-- Data snapshot counts inside a checkpoint (`namespaces/checkpoints.ts`). -/
structure DataSnapshot where
  keyCount : Json
  totalSizeBytes : Json

/-- Normalizer `parseDataSnapshot` (`namespaces/checkpoints.ts`). -/
def parseDataSnapshot (data : Json) : DataSnapshot where
  keyCount := jsOrD (getField data "key_count") (.num 0)
  totalSizeBytes := jsOrD (getField data "total_size_bytes") (.num 0)

/-- Checkpoint snapshot (`namespaces/checkpoints.ts`). -/
structure Checkpoint where
  id : Json
  agentId : Json
  label : Option Json
  description : Option Json
  configVersion : Json
  dataSnapshot : DataSnapshot
  createdAt : Option JsDate
  auditId : Option Json

/-- Normalizer `parseCheckpoint` (`namespaces/checkpoints.ts`): the nested snapshot
is normalized recursively from `data.data_snapshot || {}`. -/
def parseCheckpoint (data : Json) : Checkpoint where
  id := jsOrD (getField data "id") (.str "")
  agentId := jsOrD (getField data "agent_id") (.str "")
  label := getField data "label"
  description := getField data "description"
  configVersion := jsOrD (getField data "config_version") (.str "")
  dataSnapshot := parseDataSnapshot (jsOrD (getField data "data_snapshot") (.obj []))
  createdAt := jsTernaryDate (getField data "created_at")
  auditId := getField data "audit_id"

/-- Result of a checkpoint restore (`namespaces/checkpoints.ts`). -/
structure RestoreResult where
  restoredFrom : Json
  configRestored : Json
  configVersion : Option Json
  dataRestored : Json
  dataKeysRestored : Json
  dataKeysRemoved : Json
  auditId : Json
  restoredAt : Option JsDate

/-- Normalizer `parseRestoreResult` (`namespaces/checkpoints.ts`). -/
def parseRestoreResult (data : Json) : RestoreResult where
  restoredFrom := jsOrD (getField data "restored_from") (.str "")
  configRestored := jsOrD (getField data "config_restored") (.bool false)
  configVersion := getField data "config_version"
  dataRestored := jsOrD (getField data "data_restored") (.bool false)
  dataKeysRestored := jsOrD (getField data "data_keys_restored") (.num 0)
  dataKeysRemoved := jsOrD (getField data "data_keys_removed") (.num 0)
  auditId := jsOrD (getField data "audit_id") (.str "")
  restoredAt := jsTernaryDate (getField data "restored_at")

/-- Audit event (`namespaces/audit.ts`). -/
structure AuditEvent where
  id : Json
  agentId : Json
  operation : Json
  resource : Json
  result : Json
  blockedBy : Option Json
  timestamp : Option JsDate
  hash : Json
  previousHash : Option Json
  metadata : Json

/-- Normalizer `parseAuditEvent` (`namespaces/audit.ts` lines 70–83). -/
def parseAuditEvent (data : Json) : AuditEvent where
  id := jsOrD (getField data "id") (.str "")
  agentId := jsOrD (getField data "agent_id") (.str "")
  operation := jsOrD (getField data "operation") (.str "")
  resource := jsOrD (getField data "resource") (.str "")
  result := jsOrD (getField data "result") (.str "allowed")
  blockedBy := getField data "blocked_by"
  timestamp := jsTernaryDate (getField data "timestamp")
  hash := jsOrD (getField data "hash") (.str "")
  previousHash := getField data "previous_hash"
  metadata := jsOrD (getField data "metadata") (.obj [])

/-- Audit chain verification result (`namespaces/audit.ts`). -/
structure Verification where
  valid : Json
  eventsChecked : Json
  chainStart : Option Json
  chainEnd : Option Json
  verifiedAt : Option JsDate
  firstInvalid : Option Json

/-- Normalizer `parseVerification` (`namespaces/audit.ts` lines 85–94). -/
def parseVerification (data : Json) : Verification where
  valid := jsOrD (getField data "valid") (.bool false)
  eventsChecked := jsOrD (getField data "events_checked") (.num 0)
  chainStart := getField data "chain_start"
  chainEnd := getField data "chain_end"
  verifiedAt := jsTernaryDate (getField data "verified_at")
  firstInvalid := getField data "first_invalid"

/-- Audit export result (`namespaces/audit.ts`). -/
structure ExportResult where
  exportId : Json
  format : Json
  downloadUrl : Json
  expiresAt : Option JsDate
  eventCount : Json
  verification : Option Verification

/-- Normalizer `parseExportResult` (`namespaces/audit.ts` lines 96–105): the nested
verification is normalized recursively when present and truthy
(`data.verification ? parseVerification(data.verification) : undefined`). -/
def parseExportResult (data : Json) : ExportResult where
  exportId := jsOrD (getField data "export_id") (.str "")
  format := jsOrD (getField data "format") (.str "json")
  downloadUrl := jsOrD (getField data "download_url") (.str "")
  expiresAt := jsTernaryDate (getField data "expires_at")
  eventCount := jsOrD (getField data "event_count") (.num 0)
  verification :=
    match getField data "verification" with
    | some v => if truthy v then some (parseVerification v) else none
    | none => none

/-! Namespace facades and their error handling

Every facade method issues one pipeline call; exactly three of them —
`agents.get` (`namespaces/index.ts` lines 117–125), `data.read` and
`data.readFull` (`namespaces/data.ts` lines 158–181) — wrap it in
`try/catch (error) { if (error instanceof NotFoundError) return null;
throw error; }`.  No other method in the five namespaces has a `try`
block, so every error propagates from them unchanged. -/

/-- The facade operations of the five namespaces, one constructor per
public method. -/
inductive FacadeOp where
  | agentsCreate | agentsGet | agentsList | agentsUpdate | agentsDelete
  | agentsSuspend | agentsActivate
  | configGet | configUpdate | configVersions | configGetVersion | configRollback
  | dataWrite | dataWriteBatch | dataRead | dataReadFull | dataDelete
  | dataDeletePrefixOp | dataList | dataSearch
  | checkpointsCreate | checkpointsList | checkpointsGet | checkpointsRestore
  | checkpointsDelete
  | auditQuery | auditGet | auditVerify | auditExport
  deriving DecidableEq

/-- How a facade method transforms an error thrown by the pipeline:
`none` means the method returns a null result instead; `some e` means it
(re-)throws `e`.  Only the three `get`/`read` lookups catch, and they
catch only `NotFoundError`. -/
def facadeError : FacadeOp → ErrKind → Option ErrKind
  | .agentsGet, e => if e.isNotFound then none else some e
  | .dataRead, e => if e.isNotFound then none else some e
  | .dataReadFull, e => if e.isNotFound then none else some e
  | _, e => some e

/-- The three single-entity lookups that convert `NotFound` to null. -/
def nullOnNotFound (op : FacadeOp) : Prop :=
  op = .agentsGet ∨ op = .dataRead ∨ op = .dataReadFull

instance (op : FacadeOp) : Decidable (nullOnNotFound op) := by
  unfold nullOnNotFound; infer_instance

/-! Specification vocabulary and concrete wire vectors -/

/-- Contract of a normalized timestamp field against its wire value: it
is absent exactly when the wire value is absent or falsy, and otherwise
it is the `new Date(...)` parse of the wire value. -/
def tsSpec (f : Option JsDate) (o : Option Json) : Prop :=
  (f = none ↔ truthyO o = false)
  ∧ ∀ v, o = some v → truthy v = true → f = some (jsNewDate v)

/-- Fully-populated `Agent` wire payload. -/
def fullAgentWire : Json :=
  .obj [("id", .str "agent_1"), ("name", .str "bot"), ("status", .str "suspended"),
    ("metadata", .obj [("env", .str "prod")]), ("config_version", .str "v2"),
    ("data_count", .num 5), ("checkpoint_count", .num 2),
    ("created_at", .str "2024-01-15T10:30:00Z"), ("updated_at", .str "2024-02-20T08:45:30Z")]

/-- Fully-populated `Config` wire payload. -/
def fullConfigWire : Json :=
  .obj [("agent_id", .str "agent_1"), ("version", .str "v3"),
    ("config", .obj [("model", .str "gpt-4")]), ("previous_version", .str "v2"),
    ("created_at", .str "2024-01-15T10:30:00Z"), ("created_by", .str "alice"),
    ("audit_id", .str "audit_9")]

/-- Fully-populated `ConfigVersion` wire payload. -/
def fullConfigVersionWire : Json :=
  .obj [("version", .str "v3"), ("created_at", .str "2024-01-15T10:30:00Z"),
    ("created_by", .str "alice"), ("summary", .str "tweak")]

/-- Fully-populated `WriteResult` wire payload. -/
def fullWriteResultWire : Json :=
  .obj [("key", .str "k1"), ("allowed", .bool true), ("audit_id", .str "audit_1"),
    ("blocked_by", .str "pii_filter"), ("reason", .str "contains email"),
    ("expires_at", .str "2024-03-01T00:00:00Z"), ("created_at", .str "2024-01-15T10:30:00Z")]

/-- Fully-populated `DataEntry` wire payload. -/
def fullDataEntryWire : Json :=
  .obj [("key", .str "k1"), ("value", .str "dark_mode"),
    ("metadata", .obj [("m", .num 1)]), ("created_at", .str "2024-01-15T10:30:00Z"),
    ("updated_at", .str "2024-02-20T08:45:30Z"), ("expires_at", .str "2024-03-01T00:00:00Z"),
    ("audit_id", .str "audit_2")]

/-- Fully-populated `SearchResult` wire payload. -/
def fullSearchResultWire : Json :=
  .obj [("key", .str "k1"), ("value", .str "dark_mode"), ("similarity", .num 1),
    ("metadata", .obj [("m", .num 1)])]

/-- Fully-populated `DataSnapshot` wire payload. -/
def fullDataSnapshotWire : Json :=
  .obj [("key_count", .num 10), ("total_size_bytes", .num 2048)]

/-- Fully-populated `Checkpoint` wire payload. -/
def fullCheckpointWire : Json :=
  .obj [("id", .str "cp_1"), ("agent_id", .str "agent_1"), ("label", .str "pre-migration"),
    ("description", .str "before upgrade"), ("config_version", .str "v3"),
    ("data_snapshot", fullDataSnapshotWire),
    ("created_at", .str "2024-01-15T10:30:00Z"), ("audit_id", .str "audit_3")]

/-- Fully-populated `RestoreResult` wire payload. -/
def fullRestoreResultWire : Json :=
  .obj [("restored_from", .str "cp_1"), ("config_restored", .bool true),
    ("config_version", .str "v2"), ("data_restored", .bool true),
    ("data_keys_restored", .num 7), ("data_keys_removed", .num 1),
    ("audit_id", .str "audit_4"), ("restored_at", .str "2024-05-06T07:08:09Z")]

/-- Fully-populated `AuditEvent` wire payload. -/
def fullAuditEventWire : Json :=
  .obj [("id", .str "evt_1"), ("agent_id", .str "agent_1"),
    ("operation", .str "data.write"), ("resource", .str "user:123"),
    ("result", .str "blocked"), ("blocked_by", .str "pii_filter"),
    ("timestamp", .str "2024-01-01T12:00:00Z"), ("hash", .str "abc123"),
    ("previous_hash", .str "xyz789"), ("metadata", .obj [("source", .str "api")])]

/-- Fully-populated `Verification` wire payload. -/
def fullVerificationWire : Json :=
  .obj [("valid", .bool true), ("events_checked", .num 42), ("chain_start", .str "h0"),
    ("chain_end", .str "h9"), ("verified_at", .str "2024-04-05T06:07:08Z"),
    ("first_invalid", .obj [("id", .str "evt_7")])]

/-- Fully-populated `ExportResult` wire payload. -/
def fullExportResultWire : Json :=
  .obj [("export_id", .str "exp_1"), ("format", .str "csv"),
    ("download_url", .str "https://anchor.example/dl"),
    ("expires_at", .str "2024-03-01T00:00:00Z"), ("event_count", .num 100),
    ("verification", fullVerificationWire)]

/-! Theorems settling the claims -/

/-- Helper: the `x ? new Date(x) : undefined` idiom meets the timestamp
contract against its wire value. -/
theorem tsSpec_ternary (o : Option Json) : tsSpec (jsTernaryDate o) o := by
  constructor
  · cases o with
    | none => simp [jsTernaryDate, truthyO]
    | some v =>
        simp only [jsTernaryDate, truthyO]
        cases h : truthy v <;> simp [h]
  · intro v hv ht
    subst hv
    simp [jsTernaryDate, ht]

/-- C10: `parseWriteResult` yields `allowed = true` for every wire value
of `allowed` other than the literal boolean `false`; in particular a
payload without the field normalizes to `allowed = true`. -/
theorem writeResult_allowed_nonfalse (data : Json) :
    (getField data "allowed" ≠ some (.bool false) → (parseWriteResult data).allowed = true)
    ∧ (parseWriteResult (Json.obj [])).allowed = true := by
  refine ⟨?_, rfl⟩
  intro h
  unfold parseWriteResult
  cases hv : getField data "allowed" with
  | none => simp
  | some v =>
      cases v with
      | bool b =>
          cases b with
          | false => exact absurd hv h
          | true => simp
      | null => simp
      | num n => simp
      | str s => simp
      | arr xs => simp
      | obj fs => simp

/-- C10 witness: a present non-boolean falsy value (`0`) still yields
`allowed = true`. -/
theorem writeResult_allowed_nonfalse_witness :
    (parseWriteResult (Json.obj [("allowed", .num 0)])).allowed = true :=
  (writeResult_allowed_nonfalse (Json.obj [("allowed", .num 0)])).1 (by simp [getField, lookupField])

/-- C7 counterexample: the claim says a timestamp field is absent exactly
when the wire field is not present, and otherwise a valid instant.  But
`parseAgent` on `{ created_at: "", updated_at: "garbage" }` leaves
`createdAt` absent although `created_at` is present (the source tests JS
truthiness, and `""` is falsy), and stores an invalid date — not a valid
instant — for the present, truthy, malformed `updated_at`. -/
theorem timestamp_field_cex :
    hasField (Json.obj [("created_at", .str ""), ("updated_at", .str "garbage")])
        "created_at" = true
    ∧ (parseAgent (Json.obj [("created_at", .str ""), ("updated_at", .str "garbage")])).createdAt
        = none
    ∧ (parseAgent (Json.obj [("created_at", .str ""), ("updated_at", .str "garbage")])).updatedAt
        = some ⟨none⟩ :=
  ⟨rfl, rfl, rfl⟩

/-- C7 (amended): in every normalizer, each timestamp field is either a
date value or entirely absent — never a raw string; it is absent exactly
when the corresponding wire field is absent or falsy (`null`, `""`, `0`,
`false`), and a present truthy wire value is stored as its
`new Date(...)` parse (an invalid date for a malformed string, never a
default date). -/
theorem timestamp_fields_parsed_or_absent (data : Json) :
    tsSpec (parseAgent data).createdAt (getField data "created_at")
    ∧ tsSpec (parseAgent data).updatedAt (getField data "updated_at")
    ∧ tsSpec (parseConfig data).createdAt (getField data "created_at")
    ∧ tsSpec (parseConfigVersion data).createdAt (getField data "created_at")
    ∧ tsSpec (parseWriteResult data).expiresAt (getField data "expires_at")
    ∧ tsSpec (parseWriteResult data).createdAt (getField data "created_at")
    ∧ tsSpec (parseDataEntry data).createdAt (getField data "created_at")
    ∧ tsSpec (parseDataEntry data).updatedAt (getField data "updated_at")
    ∧ tsSpec (parseDataEntry data).expiresAt (getField data "expires_at")
    ∧ tsSpec (parseCheckpoint data).createdAt (getField data "created_at")
    ∧ tsSpec (parseRestoreResult data).restoredAt (getField data "restored_at")
    ∧ tsSpec (parseAuditEvent data).timestamp (getField data "timestamp")
    ∧ tsSpec (parseVerification data).verifiedAt (getField data "verified_at")
    ∧ tsSpec (parseExportResult data).expiresAt (getField data "expires_at") :=
  ⟨tsSpec_ternary _, tsSpec_ternary _, tsSpec_ternary _, tsSpec_ternary _,
    tsSpec_ternary _, tsSpec_ternary _, tsSpec_ternary _, tsSpec_ternary _,
    tsSpec_ternary _, tsSpec_ternary _, tsSpec_ternary _, tsSpec_ternary _,
    tsSpec_ternary _, tsSpec_ternary _⟩

/-- C7 witness: a present, truthy, well-formed `created_at` becomes the
parsed instant. -/
theorem timestamp_fields_parsed_or_absent_witness :
    (parseAgent (Json.obj [("created_at", .str "2024-01-15T10:30:00Z")])).createdAt
      = some ⟨some 1705314600000⟩ := by
  have h :=
    ((timestamp_fields_parsed_or_absent
        (Json.obj [("created_at", .str "2024-01-15T10:30:00Z")])).1).2
      (.str "2024-01-15T10:30:00Z") rfl rfl
  rw [h]
  decide

/-- C1 counterexample: the claim classifies any body containing a
`blocked_by` field as a policy violation, but the source tests JS
truthiness, so a present-but-empty `blocked_by` on a 400 is classified as
a `ValidationError`, not a `PolicyViolationError`. -/
theorem classifier_policy_truthiness_cex :
    hasField (Json.obj [("blocked_by", .str "")]) "blocked_by" = true
    ∧ (handleError 400 (Json.obj [("blocked_by", .str "")])).isPolicyViolation = false
    ∧ handleError 400 (Json.obj [("blocked_by", .str "")])
        = .validation (.str "HTTP 400") 400 (Json.obj [("blocked_by", .str "")]) none :=
  ⟨rfl, rfl, rfl⟩

/-- C1 (amended): for every non-2xx (status, parsed body) pair, if the
body holds a truthy `blocked_by` or `policy_name` value the result is a
`PolicyViolation` carrying that policy name regardless of status;
otherwise 400 maps to `Validation` (with the body's `field` value when
present), 401 to `Authentication`, 403 to `Authorization` (with
`required_permission`), 404 to `NotFound`, 429 to `RateLimit` (with
`retry_after`), ≥ 500 to `Server`, and any other non-2xx status to the
generic API error. -/
theorem classifier_status_mapping (status : Nat) (data : Json)
    (_hs : status < 200 ∨ 300 ≤ status) :
    (policyIndicator data = true →
      handleError status data
        = .policyViolation (classifierMessage status data) (classifierPolicyName data)
            status data)
    ∧ (policyIndicator data = false →
        (status = 400 → handleError status data
            = .validation (classifierMessage status data) status data
                (getField data "field"))
        ∧ (status = 401 → handleError status data
            = .authentication (classifierMessage status data) status data)
        ∧ (status = 403 → handleError status data
            = .authorization (classifierMessage status data) status data
                (getField data "required_permission"))
        ∧ (status = 404 → handleError status data
            = .notFound (classifierMessage status data) status data)
        ∧ (status = 429 → handleError status data
            = .rateLimit (classifierMessage status data) status data
                (getField data "retry_after"))
        ∧ (500 ≤ status → handleError status data
            = .server (classifierMessage status data) status data)
        ∧ (status ≠ 400 → status ≠ 401 → status ≠ 403 → status ≠ 404 → status ≠ 429 →
            status < 500 → handleError status data
              = .api (classifierMessage status data) status data)) := by
  constructor
  · intro hp
    simp [handleError, hp]
  · intro hp
    refine ⟨?_, ?_, ?_, ?_, ?_, ?_, ?_⟩
    · intro h; subst h; simp [handleError, hp]
    · intro h; subst h; simp [handleError, hp]
    · intro h; subst h; simp [handleError, hp]
    · intro h; subst h; simp [handleError, hp]
    · intro h; subst h; simp [handleError, hp]
    · intro h
      have h400 : status ≠ 400 := by omega
      have h401 : status ≠ 401 := by omega
      have h403 : status ≠ 403 := by omega
      have h404 : status ≠ 404 := by omega
      have h429 : status ≠ 429 := by omega
      simp [handleError, hp, h400, h401, h403, h404, h429, h]
    · intro h400 h401 h403 h404 h429 h500
      have h : ¬ 500 ≤ status := by omega
      simp [handleError, hp, h400, h401, h403, h404, h429, h]

/-- C1 witness: a 404 with a plain message classifies as `NotFound`, and a
400 with a truthy `blocked_by` classifies as a `PolicyViolation` carrying
the policy name. -/
theorem classifier_status_mapping_witness :
    handleError 404 (Json.obj [("message", .str "nope")])
      = .notFound (.str "nope") 404 (Json.obj [("message", .str "nope")])
    ∧ handleError 400 (Json.obj [("blocked_by", .str "pii_filter")])
      = .policyViolation (.str "HTTP 400") (.str "pii_filter") 400
          (Json.obj [("blocked_by", .str "pii_filter")]) := by
  constructor
  · exact ((classifier_status_mapping 404 (Json.obj [("message", .str "nope")])
      (Or.inr (by omega))).2 rfl).2.2.2.1 rfl
  · exact (classifier_status_mapping 400 (Json.obj [("blocked_by", .str "pii_filter")])
      (Or.inr (by omega))).1 rfl

/-- C5: body text becomes JSON by a total rule — empty text yields `{}`,
valid JSON yields its parse, any other non-empty text yields
`{ error: <raw text> }` — and a 2xx response returns that value to the
caller (in particular, a 200 with an empty body returns `{}` rather than
failing to parse). -/
theorem body_parse_total_rule :
    (∀ text : String, text = "" → parseBody text = .obj [])
    ∧ (∀ text j, jsonParse text = some j → parseBody text = j)
    ∧ (∀ text, text ≠ "" → jsonParse text = none →
        parseBody text = .obj [("error", .str text)])
    ∧ (∀ (R D T status : Nat) (oracle : Nat → AttemptOutcome) (text : String),
        oracle 0 = .resp status text → 200 ≤ status → status ≤ 299 →
        (requestRun R D T oracle).result = .ok (parseBody text)) := by
  refine ⟨?_, ?_, ?_, ?_⟩
  · intro text h
    subst h
    rfl
  · intro text j h
    by_cases he : text = ""
    · subst he
      exact absurd h (by simp [jsonParse, parseVal, skipWs, parseNumber, takeDigits])
    · simp [parseBody, he, h]
  · intro text he h
    simp [parseBody, he, h]
  · intro R D T status oracle text ho h1 h2
    unfold requestRun requestGo
    rw [ho]
    simp [h1, h2]

/-- C5 witness: a 200 with an empty body yields `{}`, and a 200 with a
JSON array body yields its parse. -/
theorem body_parse_total_rule_witness :
    (requestRun 3 100 30000 (fun _ => .resp 200 "")).result = .ok (.obj [])
    ∧ (requestRun 3 100 30000 (fun _ => .resp 200 "[5, true]")).result
        = .ok (.arr [.num 5, .bool true]) := by
  constructor
  · exact body_parse_total_rule.2.2.2 3 100 30000 200 (fun _ => .resp 200 "") "" rfl
      (by omega) (by omega)
  · have h := body_parse_total_rule.2.2.2 3 100 30000 200
      (fun _ => .resp 200 "[5, true]") "[5, true]" rfl (by omega) (by omega)
    rw [h]
    rfl

/-- C9 counterexample: the claim says every request carries the API-key
header, but with no API key configured (`apiKey = ""`, the
`normalizeConfig` fallback) the header object holds only the
client-identifying header — `X-API-Key` is absent. -/
theorem request_headers_apikey_cex :
    requestHeaders "" false = [("User-Agent", "anchorai-typescript/1.0.0")] := by
  decide

/-- C9 (amended): every request carries the client-identifying
`User-Agent` header; it carries the `X-API-Key` header exactly when an
API key is configured (non-empty), and the JSON `Content-Type` header
exactly when a JSON body is being sent; the header object is built once
before the attempt loop (`requestHeaders` depends only on the key and
body presence), so every retry of the call sends the same set. -/
theorem request_headers_spec (apiKey : String) (hasBody : Bool) :
    ("User-Agent", "anchorai-typescript/1.0.0") ∈ requestHeaders apiKey hasBody
    ∧ (apiKey ≠ "" → ("X-API-Key", apiKey) ∈ requestHeaders apiKey hasBody)
    ∧ (apiKey = "" → ∀ p ∈ requestHeaders apiKey hasBody, p.1 ≠ "X-API-Key")
    ∧ ((("Content-Type", "application/json") ∈ requestHeaders apiKey hasBody)
        ↔ hasBody = true) := by
  by_cases hk : apiKey = "" <;> cases hasBody <;>
    simp [requestHeaders, hk]

/-- C9 witness: with a configured key and a JSON body, both conditional
headers are present. -/
theorem request_headers_spec_witness :
    ("X-API-Key", "sk-test") ∈ requestHeaders "sk-test" true
    ∧ ("Content-Type", "application/json") ∈ requestHeaders "sk-test" true :=
  ⟨(request_headers_spec "sk-test" true).2.1 (by simp),
    (request_headers_spec "sk-test" true).2.2.2.mpr rfl⟩

/-- C6: a facade converts an error to a null result only when the error
is `NotFound` and the operation is one of the three single-entity
lookups (`agents.get`, `data.read`, `data.readFull`); every other
(operation, error) pair re-throws the error unchanged — no wrapping, no
downgrade. -/
theorem facade_notfound_null_policy (op : FacadeOp) (e : ErrKind) :
    (facadeError op e = none ↔ (e.isNotFound = true ∧ nullOnNotFound op))
    ∧ (∀ e', facadeError op e = some e' → e' = e) := by
  cases op <;> cases e <;>
    simp [facadeError, ErrKind.isNotFound, nullOnNotFound]

/-- C6 witness: `data.read` converts `NotFound` to null, while
`agents.list` re-throws the same `NotFound` unchanged. -/
theorem facade_notfound_null_policy_witness :
    facadeError .dataRead (.notFound (.str "gone") 404 (.obj [])) = none
    ∧ ∀ e', facadeError .agentsList (.notFound (.str "gone") 404 (.obj [])) = some e' →
        e' = .notFound (.str "gone") 404 (.obj []) :=
  ⟨(facade_notfound_null_policy .dataRead (.notFound (.str "gone") 404 (.obj []))).1.mpr
      ⟨rfl, Or.inr (Or.inl rfl)⟩,
    (facade_notfound_null_policy .agentsList (.notFound (.str "gone") 404 (.obj []))).2⟩

/-- C8: for each entity kind, normalizing a wire payload in which every
documented field is populated and reading back each documented field
returns exactly the input values — names translated from snake_case and
timestamps compared by instant (`2024-01-15T10:30:00Z` is epoch
millisecond `1705314600000`, and so on). -/
theorem entity_full_payload_roundtrip :
    parseAgent fullAgentWire
      = ⟨.str "agent_1", .str "bot", .str "suspended", .obj [("env", .str "prod")],
          some (.str "v2"), some (.num 5), some (.num 2),
          some ⟨some 1705314600000⟩, some ⟨some 1708418730000⟩⟩
    ∧ parseConfig fullConfigWire
      = ⟨.str "agent_1", .str "v3", .obj [("model", .str "gpt-4")], some (.str "v2"),
          some ⟨some 1705314600000⟩, some (.str "alice"), some (.str "audit_9")⟩
    ∧ parseConfigVersion fullConfigVersionWire
      = ⟨.str "v3", some ⟨some 1705314600000⟩, some (.str "alice"), some (.str "tweak")⟩
    ∧ parseWriteResult fullWriteResultWire
      = ⟨.str "k1", true, .str "audit_1", some (.str "pii_filter"),
          some (.str "contains email"), some ⟨some 1709251200000⟩,
          some ⟨some 1705314600000⟩⟩
    ∧ parseDataEntry fullDataEntryWire
      = ⟨.str "k1", .str "dark_mode", .obj [("m", .num 1)], some ⟨some 1705314600000⟩,
          some ⟨some 1708418730000⟩, some ⟨some 1709251200000⟩, .str "audit_2"⟩
    ∧ parseSearchResult fullSearchResultWire
      = ⟨.str "k1", .str "dark_mode", .num 1, .obj [("m", .num 1)]⟩
    ∧ parseDataSnapshot fullDataSnapshotWire = ⟨.num 10, .num 2048⟩
    ∧ parseCheckpoint fullCheckpointWire
      = ⟨.str "cp_1", .str "agent_1", some (.str "pre-migration"),
          some (.str "before upgrade"), .str "v3", ⟨.num 10, .num 2048⟩,
          some ⟨some 1705314600000⟩, some (.str "audit_3")⟩
    ∧ parseRestoreResult fullRestoreResultWire
      = ⟨.str "cp_1", .bool true, some (.str "v2"), .bool true, .num 7, .num 1,
          .str "audit_4", some ⟨some 1714979289000⟩⟩
    ∧ parseAuditEvent fullAuditEventWire
      = ⟨.str "evt_1", .str "agent_1", .str "data.write", .str "user:123",
          .str "blocked", some (.str "pii_filter"), some ⟨some 1704110400000⟩,
          .str "abc123", some (.str "xyz789"), .obj [("source", .str "api")]⟩
    ∧ parseVerification fullVerificationWire
      = ⟨.bool true, .num 42, some (.str "h0"), some (.str "h9"),
          some ⟨some 1712297228000⟩, some (.obj [("id", .str "evt_7")])⟩
    ∧ parseExportResult fullExportResultWire
      = ⟨.str "exp_1", .str "csv", .str "https://anchor.example/dl",
          some ⟨some 1709251200000⟩, .num 100,
          some ⟨.bool true, .num 42, some (.str "h0"), some (.str "h9"),
            some ⟨some 1712297228000⟩, some (.obj [("id", .str "evt_7")])⟩⟩ :=
  ⟨rfl, rfl, rfl, rfl, rfl, rfl, rfl, rfl, rfl, rfl, rfl, rfl⟩

/-- Helper: starting from a backoff trace of the form
`[D, 2D, 4D, ...]` (one entry per completed attempt), the loop only ever
extends it in the same form, so the final trace is `D * 2 ^ j` for
`j = 0, 1, 2, ...`. -/
theorem requestGo_sleeps_pow (R D T : Nat) (oracle : Nat → AttemptOutcome) :
    ∀ (fuel attempt : Nat) (lastError : Option ErrKind) (n : Nat),
      ∃ m, (requestGo R D T oracle fuel attempt lastError
              ((List.range attempt).map fun j => D * 2 ^ j) n).sleeps
            = (List.range m).map fun j => D * 2 ^ j := by
  intro fuel
  induction fuel with
  | zero =>
      intro attempt lastError n
      exact ⟨attempt, rfl⟩
  | succ f ih =>
      intro attempt lastError n
      have hext : ((List.range attempt).map fun j => D * 2 ^ j) ++ [D * 2 ^ attempt]
          = (List.range (attempt + 1)).map fun j => D * 2 ^ j := by
        rw [List.range_succ, List.map_append]
        rfl
      cases ho : oracle attempt with
      | fail tm msg =>
          by_cases hlt : attempt < R
          · simpa [requestGo, ho, hlt, hext] using
              ih (attempt + 1) (some (.network (failMsg T tm msg))) (n + 1)
          · exact ⟨attempt, by simp [requestGo, ho, hlt]⟩
      | resp status body =>
          by_cases h2 : 200 ≤ status ∧ status ≤ 299
          · exact ⟨attempt, by simp [requestGo, ho, h2]⟩
          · by_cases h4 : 400 ≤ (if status = 0 then 500 else status)
                ∧ (if status = 0 then 500 else status) < 500
                ∧ (if status = 0 then 500 else status) ≠ 429
            · exact ⟨attempt, by simp [requestGo, ho, h2, h4]⟩
            · by_cases hlt : attempt < R
              · simpa [requestGo, ho, h2, h4, hlt, hext] using
                  ih (attempt + 1) lastError (n + 1)
              · exact ⟨attempt, by simp [requestGo, ho, h2, h4, hlt]⟩

/-- C2: the backoff sleep awaited between failed attempt `i` and attempt
`i + 1` (zero-based) is `retryDelay * 2 ^ i`, whatever mix of transport
failures and retryable HTTP statuses the attempts saw. -/
theorem backoff_exponential_delays (R D T : Nat) (oracle : Nat → AttemptOutcome) :
    ∀ (i : Nat) (h : i < (requestRun R D T oracle).sleeps.length),
      (requestRun R D T oracle).sleeps.get ⟨i, h⟩ = D * 2 ^ i := by
  have h0 := requestGo_sleeps_pow R D T oracle (R + 1) 0 none 0
  simp only [List.range_zero, List.map_nil] at h0
  obtain ⟨m, hm⟩ := h0
  have hm' : (requestRun R D T oracle).sleeps = (List.range m).map fun j => D * 2 ^ j := hm
  intro i h
  rw [List.get_of_eq hm']
  simp [List.get_eq_getElem, List.getElem_map, List.getElem_range]

/-- C2 witness: with base delay 100 and every attempt failing, the second
sleep (index 1) is 200 ms. -/
theorem backoff_exponential_delays_witness :
    (requestRun 3 100 30000 (fun _ => .fail false "boom")).sleeps.get ⟨1, by decide⟩ = 200 :=
  backoff_exponential_delays 3 100 30000 (fun _ => .fail false "boom") 1 (by decide)

/-- C3: a first response with a 4xx status other than 429 ends the call
after exactly one transport attempt, with no backoff sleep, throwing the
classified error. -/
theorem client_error_single_attempt (R D T : Nat) (oracle : Nat → AttemptOutcome)
    (status : Nat) (body : String)
    (h0 : oracle 0 = .resp status body) (h4 : 400 ≤ status) (h5 : status < 500)
    (h429 : status ≠ 429) :
    requestRun R D T oracle
      = ⟨.error (handleError status (parseBody body)), 1, []⟩ := by
  have h2 : ¬ (200 ≤ status ∧ status ≤ 299) := by omega
  have hz : ¬ status = 0 := by omega
  unfold requestRun
  simp [requestGo, h0, h2, hz, h4, h5, h429]

/-- C3 witness: a 404 on the first attempt, with retry budget available,
still performs exactly one attempt and sleeps never. -/
theorem client_error_single_attempt_witness :
    requestRun 3 100 30000 (fun _ => .resp 404 "")
      = ⟨.error (handleError 404 (.obj [])), 1, []⟩ :=
  client_error_single_attempt 3 100 30000 (fun _ => .resp 404 "") 404 "" rfl
    (by omega) (by omega) (by omega)

/-- Helper: when every attempt up to the budget fails at the transport
level, the loop runs through its whole remaining fuel and surfaces the
`NetworkError` built from the last attempt's failure. -/
theorem requestGo_allfail (R D T : Nat) (oracle : Nat → AttemptOutcome)
    (tm : Bool) (msg : String)
    (hf : ∀ a, a ≤ R → (oracle a).isFail = true)
    (hR : oracle R = .fail tm msg) :
    ∀ (fuel attempt : Nat) (lastError : Option ErrKind) (sleeps : List Nat) (n : Nat),
      attempt + fuel = R + 1 → attempt ≤ R →
      (requestGo R D T oracle fuel attempt lastError sleeps n).result
          = .error (.network (failMsg T tm msg))
      ∧ (requestGo R D T oracle fuel attempt lastError sleeps n).attempts = n + fuel := by
  intro fuel
  induction fuel with
  | zero =>
      intro attempt lastError sleeps n hsum hle
      omega
  | succ f ih =>
      intro attempt lastError sleeps n hsum hle
      have hfail := hf attempt hle
      cases ho : oracle attempt with
      | resp s b =>
          rw [ho] at hfail
          simp [AttemptOutcome.isFail] at hfail
      | fail tm' msg' =>
          by_cases hlt : attempt < R
          · have hres := ih (attempt + 1) (some (.network (failMsg T tm' msg')))
                (sleeps ++ [D * 2 ^ attempt]) (n + 1) (by omega) (by omega)
            constructor
            · simpa [requestGo, ho, hlt] using hres.1
            · have h2 := hres.2
              simp only [requestGo, ho, hlt, if_true]
              simp [h2]
              omega
          · have ha : attempt = R := by omega
            have hf0 : f = 0 := by omega
            subst ha
            subst hf0
            rw [hR] at ho
            injection ho with htm hmsg
            subst htm
            subst hmsg
            refine ⟨?_, ?_⟩ <;> simp [requestGo, hR, Nat.lt_irrefl]

/-- C4: when every attempt fails at the transport level, the call
performs exactly `1 + retryAttempts` transport attempts (4 for the
default `retryAttempts = 3`) and throws a `NetworkError` whose message
is built from the last attempt's underlying failure. -/
theorem all_transport_failures_budget (R D T : Nat) (oracle : Nat → AttemptOutcome)
    (tm : Bool) (msg : String)
    (hf : ∀ a, a ≤ R → (oracle a).isFail = true)
    (hR : oracle R = .fail tm msg) :
    (requestRun R D T oracle).attempts = R + 1
    ∧ (requestRun R D T oracle).result = .error (.network (failMsg T tm msg)) := by
  have h := requestGo_allfail R D T oracle tm msg hf hR (R + 1) 0 none [] 0
      (by omega) (by omega)
  exact ⟨by simpa using h.2, h.1⟩

/-- C4 witness: with `retryAttempts = 3` and each attempt failing with a
distinct message, 4 attempts happen and the error carries the message of
the last one. -/
theorem all_transport_failures_budget_witness :
    (requestRun 3 100 30000 (fun a => .fail false (toString a))).attempts = 4
    ∧ (requestRun 3 100 30000 (fun a => .fail false (toString a))).result
        = .error (.network "Request failed: 3") := by
  have h := all_transport_failures_budget 3 100 30000
      (fun a => .fail false (toString a)) false (toString 3) (fun a _ => rfl) rfl
  exact ⟨h.1, h.2⟩

end Anchor
